import Mathlib

/-!
Verification of the fastify-project repository: the transactional balance
ledger (src/service/user.service.ts, src/repository/users.repository.ts),
the boundary validation of POST /users/buy (src/controller/skin.controller.ts,
simpleBuyItem), and the catalog cache-aside pipeline
(src/service/skin.service.ts getSkinsByWorker, src/workers/skin.worker.js
fetchItems).

Modelling conventions:
* The users table is a list of rows; SQL queries become list operations.
* JavaScript numbers appearing at the HTTP boundary are modelled by JSNum
  (a rational, NaN, or a signed infinity); balances are Int, matching the
  INT column of the users table created by UsersRepository.createTable.
* JSON payloads exchanged between the worker and the service are carried
  as their parsed values (JSON.parse after JSON.stringify is the identity
  on these records); a cached value is the list of worker messages whose
  serializations were concatenated into responseData, so the empty string
  corresponds to the empty list.
-/

namespace FastifyProject

/-! ## Balance ledger: users.repository.ts and user.service.ts -/

/-- A row of the users table (id SERIAL PRIMARY KEY, balance INT, email).
The password column plays no role in deductBalance and is omitted. -/
structure UserRow where
  id : Int
  balance : Int
  email : String
deriving DecidableEq, Repr

/-- The rows returned by UsersRepository.getUserForUpdate's query
SELECT * FROM users WHERE id = $1 FOR UPDATE. -/
def getUserForUpdateRows (table : List UserRow) (userId : Int) : List UserRow :=
  table.filter (fun r => r.id == userId)

/-- UsersRepository.getUserForUpdate: returns rows[0], i.e. undefined (none)
when no row matches. (The rows.length > 1 branch is unreachable because id
is the primary key; see pkUnique.) -/
def getUserForUpdate (table : List UserRow) (userId : Int) : Option UserRow :=
  (getUserForUpdateRows table userId).head?

/-- UsersRepository.updateUserBalance:
UPDATE users SET balance = $1 WHERE id = $2. -/
def updateUserBalance (table : List UserRow) (userId newBalance : Int) : List UserRow :=
  table.map (fun r => if r.id == userId then { r with balance := newBalance } else r)

/-- id is a primary key, so a SELECT by id returns at most one row. This
invariant is guaranteed by the schema in UsersRepository.createTable. -/
def pkUnique (table : List UserRow) : Prop :=
  ∀ userId : Int, (getUserForUpdateRows table userId).length ≤ 1

/-- The transaction-control commands issued through the repository during
one deductBalance call, in order. -/
inductive TxCmd
  | begin
  | commit
  | rollback
deriving DecidableEq, Repr

/-- The value returned by UserService.deductBalance: either
success with the user object { id, balance } or failure with a message. -/
inductive DeductOutcome
  | success (id : Int) (balance : Int)
  | failure (msg : String)
deriving DecidableEq, Repr

/-- UserService.deductBalance: begin; select the row for update; if absent,
roll back and report user-not-found; if balance < amount, roll back and
report insufficient balance; otherwise write balance - amount and commit.
The returned triple is (outcome, table after the transaction resolves,
transaction commands issued); a rolled-back transaction leaves the table
as it was. -/
def deductBalance (table : List UserRow) (userId amount : Int) :
    DeductOutcome × List UserRow × List TxCmd :=
  match getUserForUpdate table userId with
  | none => (.failure "User not found", table, [.begin, .rollback])
  | some row =>
    if row.balance < amount then
      (.failure "Insufficient balance", table, [.begin, .rollback])
    else
      (.success userId (row.balance - amount),
       updateUserBalance table userId (row.balance - amount),
       [.begin, .commit])

/-! ## Boundary validation: UserController.simpleBuyItem -/

/-- A JavaScript number: a (finite) rational, NaN, or a signed infinity. -/
inductive JSNum
  | num (q : ℚ)
  | nan
  | inf
  | negInf
deriving DecidableEq, Repr

/-- JavaScript truthiness of a possibly-missing number: undefined, 0 and
NaN are falsy. -/
def jsTruthy : Option JSNum → Bool
  | none => false
  | some (.num q) => decide (q ≠ 0)
  | some .nan => false
  | some .inf => true
  | some .negInf => true

/-- The global isNaN applied to a possibly-missing number: undefined
coerces to NaN. -/
def jsIsNaN : Option JSNum → Bool
  | none => true
  | some .nan => true
  | some _ => false

/-- The comparison x <= 0 on a possibly-missing number: any comparison with
NaN (and with undefined, which coerces to NaN) is false. -/
def jsLeZero : Option JSNum → Bool
  | none => false
  | some (.num q) => decide (q ≤ 0)
  | some .nan => false
  | some .inf => false
  | some .negInf => true

/-- The rejection condition of UserController.simpleBuyItem:
!userId || !amount || isNaN(userId) || isNaN(amount) || amount <= 0. -/
def buyRejected (userId amount : Option JSNum) : Bool :=
  !jsTruthy userId || !jsTruthy amount || jsIsNaN userId || jsIsNaN amount ||
    jsLeZero amount

/-- UserController.simpleBuyItem, abstracted over the outcome the ledger
would produce: returns the HTTP status sent and whether
UserService.deductBalance was invoked. On rejected input it responds 400
without invoking the ledger; otherwise it invokes the ledger and responds
200 on success, 400 on a business rejection. -/
def simpleBuyItem (userId amount : Option JSNum)
    (deductResult : DeductOutcome) : Nat × Bool :=
  if buyRejected userId amount then (400, false)
  else
    match deductResult with
    | .success _ _ => (200, true)
    | .failure _ => (400, true)

/-! ## Catalog pipeline: skin.worker.js and skin.service.ts -/

/-- An item of one skinport listing as consumed by the worker:
market_hash_name and min_price (which the API may return as null). -/
structure SourceItem where
  market_hash_name : String
  min_price : Option ℚ
deriving DecidableEq, Repr

/-- A merged catalog record produced by the worker. -/
structure Item where
  name : String
  min_price_non_tradable : Option ℚ
  min_price_tradable : Option ℚ
deriving DecidableEq, Repr

/-- tradableItems[index]?.min_price || null: undefined when the index is
out of range, and a falsy min_price (null or 0) collapses to null. -/
def mergedTradablePrice (tradableItems : List SourceItem) (index : Nat) : Option ℚ :=
  match tradableItems[index]? with
  | none => none
  | some it =>
    match it.min_price with
    | none => none
    | some p => if p = 0 then none else some p

/-- The positional merge in skin.worker.js fetchItems:
nonTradableItems.map((item, index) => ...). -/
def mergeItems (nonTradableItems tradableItems : List SourceItem) : List Item :=
  nonTradableItems.enum.map (fun p =>
    { name := p.2.market_hash_name,
      min_price_non_tradable := p.2.min_price,
      min_price_tradable := mergedTradablePrice tradableItems p.1 })

/-- A non-null message posted by the worker, carried as its parsed value:
either the serialized merged item list or the serialized error record
\x7b error, details \x7d from the catch branch. -/
inductive Wire
  | itemsMsg (items : List Item)
  | errorMsg (details : String)
deriving DecidableEq, Repr

/-- How one run of the worker's fetch resolves: both upstream requests
succeed with the two listings, or the awaited fetch throws. -/
inductive FetchOutcome
  | ok (nonTradableItems tradableItems : List SourceItem)
  | fetchErr (details : String)
deriving DecidableEq, Repr

/-- The messages skin.worker.js posts to parentPort, in order; none is the
null termination message. The success branch posts the merged list then
null; the catch branch posts the error record and no termination. -/
def workerMessages : FetchOutcome → List (Option Wire)
  | .ok nt tt => [some (.itemsMsg (mergeItems nt tt)), none]
  | .fetchErr d => [some (.errorMsg d)]

/-- The worker's exit code. Both branches of fetchItems return normally
(the catch swallows the error after posting it), the script installs no
message listener, and nothing calls process.exit, so the worker thread
always exits with code 0. -/
def workerExitCode : FetchOutcome → Nat := fun _ => 0

/-- What the cache probe (redis.get of the fixed key) yields: the stored
value (none for a miss, i.e. a null reply), or a thrown I/O error. -/
inductive CacheProbe
  | val (v : Option (List Wire))
  | ioError
deriving DecidableEq, Repr

/-- The reply getSkinsByWorker produces: a 200 built from the parsed cached
value, a 500 from the cache catch block, or a chunked stream of the
worker's non-null messages, ended iff a null message arrived. -/
inductive SkinsResponse
  | cacheHit (data : List Wire)
  | cacheError
  | streamed (chunks : List Wire) (ended : Bool)
deriving DecidableEq, Repr

/-- The observable result of one run of SkinService.getSkinsByWorker:
the reply, whether a worker thread was spawned, and the value written to
the cache key (none when the key is left untouched). -/
structure RunResult where
  response : SkinsResponse
  workerSpawned : Bool
  cacheWrite : Option (List Wire)
deriving DecidableEq, Repr

/-- The cache-miss path of getSkinsByWorker: spawn the worker, forward each
non-null message to the response stream while accumulating it into
responseData, end the stream on a null message, and on the exit event
write responseData to the cache key with EX 300 iff the exit code is 0. -/
def runFetchPath (o : FetchOutcome) : RunResult :=
  let msgs := workerMessages o
  let responseData := msgs.filterMap id
  { response := .streamed responseData (msgs.contains none),
    workerSpawned := true,
    cacheWrite := if workerExitCode o = 0 then some responseData else none }

/-- SkinService.getSkinsByWorker: probe the cache; on a thrown cache error
reply 500 and stop; on a truthy cached value (a non-empty string) reply
with the parsed value and stop; otherwise (null reply, or the falsy empty
string) run the worker fetch path. -/
def getSkinsByWorker (probe : CacheProbe) (o : FetchOutcome) : RunResult :=
  match probe with
  | .ioError => { response := .cacheError, workerSpawned := false, cacheWrite := none }
  | .val (some v) =>
    if v.isEmpty then runFetchPath o
    else { response := .cacheHit v, workerSpawned := false, cacheWrite := none }
  | .val none => runFetchPath o

/-- Deserializing a cached snapshot back into the item list it holds:
defined exactly when the snapshot is a single serialized item-list message,
which is what every successful fetch writes. -/
def deserializeSnapshot : List Wire → Option (List Item)
  | [.itemsMsg items] => some items
  | _ => none

/-! ## Row-lock serialization of two concurrent debits

Two concurrent deductBalance calls against the same account, modelled as an
interleaving machine. SELECT ... FOR UPDATE acquires the row lock and reads
the balance; while a thread holds the lock the other thread's only enabled
step (its own acquisition) is blocked, exactly the Postgres behaviour the
repository relies on. Resolving a transaction applies the debit rule of
deductBalance to the balance read under the lock and releases the lock by
committing or rolling back. -/

/-- The effect one committed-or-rolled-back deductBalance of amount a has
on a balance b: reject (leave b) when b < a, otherwise commit b - a. -/
def applyDebit (b a : Int) : Int := if b < a then b else b - a

/-- Where one debit thread stands: not yet begun, holding the row lock
with the balance it read under the lock, or resolved (committed or
rolled back). -/
inductive Phase
  | start
  | locked (readBal : Int)
  | done
deriving DecidableEq, Repr

/-- The shared state of two concurrent debits on one account row: the
committed balance, which thread (if any) holds the row lock
(false = thread 0, true = thread 1), and each thread's phase. -/
structure LockState where
  balance : Int
  lock : Option Bool
  p0 : Phase
  p1 : Phase
deriving DecidableEq, Repr

/-- One interleaving step of the two debits (amounts a0 and a1): a thread
acquires the free row lock and reads the committed balance (BEGIN plus
SELECT ... FOR UPDATE), or the lock holder validates, updates and
commits — or rolls back — releasing the lock. Acquisition requires
lock = none: a thread blocks while the other's transaction is open. -/
inductive DebitStep (a0 a1 : Int) : LockState → LockState → Prop
  | acquire0 (s : LockState) (h : s.p0 = .start) (hl : s.lock = none) :
      DebitStep a0 a1 s { s with lock := some false, p0 := .locked s.balance }
  | resolve0 (s : LockState) (r : Int) (h : s.p0 = .locked r) (hl : s.lock = some false) :
      DebitStep a0 a1 s { s with lock := none, p0 := .done, balance := applyDebit r a0 }
  | acquire1 (s : LockState) (h : s.p1 = .start) (hl : s.lock = none) :
      DebitStep a0 a1 s { s with lock := some true, p1 := .locked s.balance }
  | resolve1 (s : LockState) (r : Int) (h : s.p1 = .locked r) (hl : s.lock = some true) :
      DebitStep a0 a1 s { s with lock := none, p1 := .done, balance := applyDebit r a1 }

/-- The states reachable from balance B with both debits pending. -/
inductive DebitReach (B a0 a1 : Int) : LockState → Prop
  | init : DebitReach B a0 a1 ⟨B, none, .start, .start⟩
  | step {s t : LockState} : DebitReach B a0 a1 s → DebitStep a0 a1 s t →
      DebitReach B a0 a1 t

/-- Inductive invariant: every reachable state is one of the nine shapes
an execution serialized by the row lock can pass through. -/
def debitInv (B a0 a1 : Int) (s : LockState) : Prop :=
  s = ⟨B, none, .start, .start⟩ ∨
  s = ⟨B, some false, .locked B, .start⟩ ∨
  s = ⟨applyDebit B a0, none, .done, .start⟩ ∨
  s = ⟨applyDebit B a0, some true, .done, .locked (applyDebit B a0)⟩ ∨
  s = ⟨applyDebit (applyDebit B a0) a1, none, .done, .done⟩ ∨
  s = ⟨B, some true, .start, .locked B⟩ ∨
  s = ⟨applyDebit B a1, none, .start, .done⟩ ∨
  s = ⟨applyDebit B a1, some false, .locked (applyDebit B a1), .done⟩ ∨
  s = ⟨applyDebit (applyDebit B a1) a0, none, .done, .done⟩

theorem debitInv_of_reach {B a0 a1 : Int} {s : LockState}
    (hr : DebitReach B a0 a1 s) : debitInv B a0 a1 s := by
  induction hr with
  | init => exact Or.inl rfl
  | step hr hstep ih =>
    rcases ih with h | h | h | h | h | h | h | h | h <;> subst h <;>
      cases hstep <;> simp_all [debitInv]

/-! ## Helper lemmas -/

theorem getUserForUpdateRows_update (table : List UserRow) (uid newB : Int) :
    getUserForUpdateRows (updateUserBalance table uid newB) uid =
      (getUserForUpdateRows table uid).map
        (fun r => { r with balance := newB }) := by
  induction table with
  | nil => rfl
  | cons a l ih =>
    simp only [getUserForUpdateRows, updateUserBalance, List.map_cons,
      List.filter_cons, beq_iff_eq] at ih ⊢
    by_cases h : a.id = uid
    · simp [h, ih]
    · simp [h, ih]

theorem getUserForUpdate_update (table : List UserRow) (uid newB : Int) :
    getUserForUpdate (updateUserBalance table uid newB) uid =
      (getUserForUpdate table uid).map (fun r => { r with balance := newB }) := by
  unfold getUserForUpdate
  rw [getUserForUpdateRows_update]
  cases getUserForUpdateRows table uid <;> rfl

theorem mergeItems_getElem? (nt tt : List SourceItem) (i : Nat) :
    (mergeItems nt tt)[i]? = (nt[i]?).map (fun it =>
      { name := it.market_hash_name,
        min_price_non_tradable := it.min_price,
        min_price_tradable := mergedTradablePrice tt i }) := by
  unfold mergeItems
  rw [List.getElem?_map, List.getElem?_enum]
  cases nt[i]? <;> rfl

theorem mergeItems_length (nt tt : List SourceItem) :
    (mergeItems nt tt).length = nt.length := by
  unfold mergeItems
  rw [List.length_map, List.enum_length]

theorem mergedTradablePrice_eq_none_iff (tt : List SourceItem) (i : Nat) :
    mergedTradablePrice tt i = none ↔
      tt[i]? = none ∨ ∃ s, tt[i]? = some s ∧
        (s.min_price = none ∨ s.min_price = some 0) := by
  unfold mergedTradablePrice
  cases h : tt[i]? with
  | none => simp
  | some s =>
    cases hp : s.min_price with
    | none => simp [hp]
    | some p => by_cases hz : p = 0 <;> simp [hp, hz]

/-! ## Claim theorems -/

/-- Claim C1: for every existing account with balance B, a debit of amount
a ≤ B commits and returns success with new balance B - a, leaving the
account row at balance B - a; a debit of a > B returns the
insufficient-balance rejection, rolls back, and leaves the table
unchanged. -/
theorem deductBalance_spec (table : List UserRow) (userId amount : Int)
    (row : UserRow) (hrow : getUserForUpdate table userId = some row) :
    (amount ≤ row.balance →
      deductBalance table userId amount =
        (.success userId (row.balance - amount),
         updateUserBalance table userId (row.balance - amount),
         [.begin, .commit]) ∧
      getUserForUpdate (deductBalance table userId amount).2.1 userId =
        some { row with balance := row.balance - amount }) ∧
    (row.balance < amount →
      deductBalance table userId amount =
        (.failure "Insufficient balance", table, [.begin, .rollback])) := by
  constructor
  · intro hle
    have hnl : ¬row.balance < amount := not_lt.mpr hle
    refine ⟨by simp [deductBalance, hrow, hnl], ?_⟩
    simp [deductBalance, hrow, hnl, getUserForUpdate_update]
  · intro hlt
    simp [deductBalance, hrow, hlt]

/-- Witness for C1, the spec's concrete scenario: account with balance
1000; debiting 400 commits and returns new balance 600, debiting 1500 is
rejected with the balance unchanged. -/
theorem deductBalance_spec_witness :
    (deductBalance [⟨1, 1000, "test@example.com"⟩] 1 400 =
      (.success 1 600,
       updateUserBalance [⟨1, 1000, "test@example.com"⟩] 1 600,
       [.begin, .commit]) ∧
     getUserForUpdate (deductBalance [⟨1, 1000, "test@example.com"⟩] 1 400).2.1 1 =
      some ⟨1, 600, "test@example.com"⟩) ∧
    deductBalance [⟨1, 1000, "test@example.com"⟩] 1 1500 =
      (.failure "Insufficient balance", [⟨1, 1000, "test@example.com"⟩],
       [.begin, .rollback]) :=
  ⟨(deductBalance_spec [⟨1, 1000, "test@example.com"⟩] 1 400
      ⟨1, 1000, "test@example.com"⟩ rfl).1 (by decide),
   (deductBalance_spec [⟨1, 1000, "test@example.com"⟩] 1 1500
      ⟨1, 1000, "test@example.com"⟩ rfl).2 (by decide)⟩

/-- Claim C4: a debit whose userId matches no row returns the
user-not-found rejection, rolls back the opened transaction, and leaves
every row of the users table untouched. -/
theorem deductBalance_userNotFound (table : List UserRow) (userId amount : Int)
    (habsent : getUserForUpdate table userId = none) :
    deductBalance table userId amount =
      (.failure "User not found", table, [.begin, .rollback]) := by
  simp [deductBalance, habsent]

/-- Witness for C4: debiting any amount on an empty users table. -/
theorem deductBalance_userNotFound_witness :
    deductBalance [] 1 400 =
      (.failure "User not found", [], [.begin, .rollback]) :=
  deductBalance_userNotFound [] 1 400 rfl

/-- Claim C9: when the cache probe itself throws (an I/O error, not a
miss), getSkinsByWorker replies with the cache 500 error, spawns no
worker, and writes nothing to the cache. -/
theorem cache_error_fails_fast (o : FetchOutcome) :
    getSkinsByWorker .ioError o =
      { response := .cacheError, workerSpawned := false, cacheWrite := none } :=
  rfl

/-- An amount the boundary is claimed to reject: missing, NaN, zero or
negative (finitely or as negative infinity). -/
def badAmount (amount : Option JSNum) : Prop :=
  amount = none ∨ amount = some .nan ∨ amount = some .negInf ∨
    ∃ q : ℚ, amount = some (.num q) ∧ q ≤ 0

/-- Counterexample to claim C5 as stated: with amount = Infinity (a
non-finite positive number) and a valid userId, simpleBuyItem does not
respond 400 and does invoke the ledger's debit — Infinity is truthy, not
NaN, and not ≤ 0, so the validation passes it through. -/
theorem simpleBuyItem_infinite_amount_invokes_debit :
    simpleBuyItem (some (.num 1)) (some .inf) (.success 1 600) = (200, true) := by
  decide

/-- Claim C5 (amended): for every request whose amount is missing, NaN,
zero or negative, the boundary responds 400 and the debit operation is
never invoked; a positively infinite amount, however, passes the
validation. -/
theorem simpleBuyItem_rejects_bad_amounts (userId amount : Option JSNum)
    (d : DeductOutcome) (h : badAmount amount) :
    simpleBuyItem userId amount d = (400, false) := by
  rcases h with h | h | h | ⟨q, h, hq⟩ <;> subst h
  · simp [simpleBuyItem, buyRejected, jsTruthy, jsIsNaN, jsLeZero]
  · simp [simpleBuyItem, buyRejected, jsTruthy, jsIsNaN, jsLeZero]
  · simp [simpleBuyItem, buyRejected, jsTruthy, jsIsNaN, jsLeZero]
  · rcases eq_or_lt_of_le hq with hq0 | hq0
    · simp [simpleBuyItem, buyRejected, jsTruthy, hq0.symm]
    · simp [simpleBuyItem, buyRejected, jsLeZero, le_of_lt hq0]

/-- Witness for amended C5: a zero amount is rejected with 400 and the
debit is not invoked. -/
theorem simpleBuyItem_rejects_bad_amounts_witness :
    simpleBuyItem (some (.num 1)) (some (.num 0)) (.success 1 600) = (400, false) :=
  simpleBuyItem_rejects_bad_amounts (some (.num 1)) (some (.num 0))
    (.success 1 600) (Or.inr (Or.inr (Or.inr ⟨0, rfl, le_refl 0⟩)))

/-- Claim C2 (exhibiting the code bug): on a cache miss, when the worker's
fetch throws, the catch branch posts the error record and the worker still
exits with code 0, so getSkinsByWorker writes the error payload to the
cache key — the cache key is not left absent, contradicting the claimed
write-only-on-clean-termination behaviour. The stream is also never
ended (no null termination message is posted). -/
theorem fetchError_still_writes_cache :
    getSkinsByWorker (.val none) (.fetchErr "Failed to fetch items") =
      { response := .streamed [.errorMsg "Failed to fetch items"] false,
        workerSpawned := true,
        cacheWrite := some [.errorMsg "Failed to fetch items"] } := by
  rfl

/-- Claim C6: on a cache miss with a clean fetch, the value written to the
cache key is exactly the payload streamed to the client, the stream is
properly ended, and deserializing the cached snapshot yields the same
merged item list, in the same order and with the same values. -/
theorem cache_roundTrip (nt tt : List SourceItem) :
    (getSkinsByWorker (.val none) (.ok nt tt)).cacheWrite =
        some [.itemsMsg (mergeItems nt tt)] ∧
    (getSkinsByWorker (.val none) (.ok nt tt)).response =
        .streamed [.itemsMsg (mergeItems nt tt)] true ∧
    deserializeSnapshot [.itemsMsg (mergeItems nt tt)] =
        some (mergeItems nt tt) :=
  ⟨rfl, rfl, rfl⟩

/-- Claim C7: on a successful fetch the worker posts exactly one message
carrying the positionally merged list followed by the null termination
message, and the merged record at index i combines the non-tradable item
i's name and min price with the tradable item i's min price. -/
theorem worker_positional_merge_messages (nt tt : List SourceItem) :
    workerMessages (.ok nt tt) = [some (.itemsMsg (mergeItems nt tt)), none] ∧
    ∀ i : Nat, (mergeItems nt tt)[i]? = (nt[i]?).map (fun it =>
      { name := it.market_hash_name,
        min_price_non_tradable := it.min_price,
        min_price_tradable := mergedTradablePrice tt i }) :=
  ⟨rfl, mergeItems_getElem? nt tt⟩

/-- Claim C8: every value the pipeline ever writes to the cache key is
non-empty, and a request finding such a (truthy) cached value replies with
the parsed snapshot, spawns no worker, and writes nothing — the price
source is never invoked on a cache hit. -/
theorem cache_hit_skips_fetch :
    (∀ (probe : CacheProbe) (o : FetchOutcome) (w : List Wire),
      (getSkinsByWorker probe o).cacheWrite = some w → w ≠ []) ∧
    (∀ (v : List Wire) (o : FetchOutcome), v ≠ [] →
      getSkinsByWorker (.val (some v)) o =
        { response := .cacheHit v, workerSpawned := false, cacheWrite := none }) := by
  constructor
  · rintro probe o w hw
    rcases probe with v | _
    · rcases v with _ | v
      · rcases o with ⟨nt, tt⟩ | d <;>
          simp [getSkinsByWorker, runFetchPath, workerMessages, workerExitCode] at hw <;>
          simp [← hw]
      · by_cases hv : v.isEmpty <;>
          rcases o with ⟨nt, tt⟩ | d <;>
          simp [getSkinsByWorker, runFetchPath, workerMessages, workerExitCode, hv] at hw <;>
          simp [← hw]
    · simp [getSkinsByWorker] at hw
  · intro v o hv
    have : v.isEmpty = false := by
      cases v
      · exact absurd rfl hv
      · rfl
    simp [getSkinsByWorker, this]

/-- Witness for C8: the snapshot a clean fetch of a one-item catalog
writes is non-empty, and a request finding it cached replies from the
cache with no worker spawned and no cache write. -/
theorem cache_hit_skips_fetch_witness :
    ([Wire.itemsMsg [⟨"A", some 10, none⟩]] ≠ ([] : List Wire)) ∧
    getSkinsByWorker (.val (some [.itemsMsg [⟨"A", some 10, none⟩]])) (.fetchErr "boom") =
      { response := .cacheHit [.itemsMsg [⟨"A", some 10, none⟩]],
        workerSpawned := false, cacheWrite := none } :=
  ⟨cache_hit_skips_fetch.1 (.val none) (.ok [⟨"A", some 10⟩] [])
      [Wire.itemsMsg [⟨"A", some 10, none⟩]] (by decide),
   cache_hit_skips_fetch.2 [.itemsMsg [⟨"A", some 10, none⟩]] (.fetchErr "boom")
      (by decide)⟩

/-- Claim C10: the merged list has the length of the non-tradable listing,
and the record at position i has a null tradable min price exactly when
the tradable listing has no item at i, or that item's min price is null,
or it equals 0 — a genuine tradable price of 0 is collapsed to null by
the || null fallback. -/
theorem merge_length_tradable_null (nt tt : List SourceItem) :
    (mergeItems nt tt).length = nt.length ∧
    ∀ (i : Nat) (item : Item), (mergeItems nt tt)[i]? = some item →
      (item.min_price_tradable = none ↔
        tt[i]? = none ∨ ∃ s, tt[i]? = some s ∧
          (s.min_price = none ∨ s.min_price = some 0)) := by
  refine ⟨mergeItems_length nt tt, fun i item h => ?_⟩
  rw [mergeItems_getElem? nt tt i] at h
  rcases hnt : nt[i]? with _ | it
  · rw [hnt] at h; exact absurd h (by simp)
  · rw [hnt] at h
    simp only [Option.map_some'] at h
    injection h with h
    subst h
    exact mergedTradablePrice_eq_none_iff tt i

/-- Witness for C10: a tradable listing whose item has min price 0 yields
a null tradable min price in the merged record. -/
theorem merge_length_tradable_null_witness :
    (⟨"A", some 10, none⟩ : Item).min_price_tradable = none ↔
      ([⟨"A", some 0⟩] : List SourceItem)[0]? = none ∨
        ∃ s, ([⟨"A", some 0⟩] : List SourceItem)[0]? = some s ∧
          (s.min_price = none ∨ s.min_price = some 0) :=
  (merge_length_tradable_null [⟨"A", some 10⟩] [⟨"A", some 0⟩]).2 0
    ⟨"A", some 10, none⟩ (by decide)

/-- Claim C3: two concurrent debits on the same account, serialized by the
row lock of SELECT ... FOR UPDATE: in every reachable state in which both
transactions have resolved, the committed balance equals the two debits
applied sequentially in some order — no lost update and no double-spend. -/
theorem concurrent_debits_serialized (B a0 a1 : Int) (s : LockState)
    (hr : DebitReach B a0 a1 s) (h0 : s.p0 = .done) (h1 : s.p1 = .done) :
    s.balance = applyDebit (applyDebit B a0) a1 ∨
    s.balance = applyDebit (applyDebit B a1) a0 := by
  rcases debitInv_of_reach hr with h | h | h | h | h | h | h | h | h <;>
    subst h <;> simp_all

/-- Witness for C3: an execution from balance 1000 in which thread 0
debits 400 and then thread 1 attempts 700 and is rejected; the final
balance 600 matches a sequential order of the two debits. -/
theorem concurrent_debits_serialized_witness :
    (600 : Int) = applyDebit (applyDebit 1000 400) 700 ∨
    (600 : Int) = applyDebit (applyDebit 1000 700) 400 :=
  concurrent_debits_serialized 1000 400 700 ⟨600, none, .done, .done⟩
    (.step (.step (.step (.step .init
      (.acquire0 ⟨1000, none, .start, .start⟩ rfl rfl))
      (.resolve0 ⟨1000, some false, .locked 1000, .start⟩ 1000 rfl rfl))
      (.acquire1 ⟨600, none, .done, .start⟩ rfl rfl))
      (.resolve1 ⟨600, some true, .done, .locked 600⟩ 600 rfl rfl))
    rfl rfl

end FastifyProject
